import Mathlib

/-!
Verification development for the deterministic rollback core of
bevy_wizard_battles (src/main.rs).

The simulation state is embedded shallowly: positions and directions are 2D
vectors over exact rationals, entities are records, and each system of the
GgrsSchedule (move_players, reload_bullet, fire_bullets, move_bullet) becomes
a function on the state.  ECS query semantics are kept: an entity that lacks a
component required by a system's query is skipped by that system, which we
model with Option-valued component fields (none = component absent).
-/

namespace WizardBattles

/- Rational arithmetic in batteries is irreducible by default, which blocks
kernel evaluation of concrete states by decide; re-marking the four
operations semireducible (for this file only) restores it. -/
set_option allowUnsafeReducibility true
attribute [local semireducible] Rat.add Rat.mul Rat.inv Rat.sub

/-- 2D vector over exact rationals, embedding the glam Vec2 values used for
positions, movement directions and bullet travel directions. -/
structure Vec2 where
  x : ℚ
  y : ℚ
  deriving DecidableEq

def Vec2.zero : Vec2 := ⟨0, 0⟩

def Vec2.add (a b : Vec2) : Vec2 := ⟨a.x + b.x, a.y + b.y⟩

instance : Add Vec2 := ⟨Vec2.add⟩

/-- Componentwise scalar multiple, embedding `direction * move_speed * dt`. -/
def Vec2.scale (c : ℚ) (v : Vec2) : Vec2 := ⟨c * v.x, c * v.y⟩

/-- Rust's f32 clamp on one coordinate: clamp x into the interval [lo, hi]. -/
def clampQ (lo hi x : ℚ) : ℚ := if x < lo then lo else if hi < x then hi else x

/-- glam Vec2::clamp, componentwise (main.rs line 179). -/
def Vec2.clamp (v lo hi : Vec2) : Vec2 :=
  ⟨clampQ lo.x hi.x v.x, clampQ lo.y hi.y v.y⟩

/-- MAP_SIZE constant (main.rs line 23). -/
def MAP_SIZE : ℚ := 41

/-- Modelled from the spec: src/input.rs is not present in the repository.
Spec section 3 describes the InputSymbol as movement direction encoded in
4 mutually exclusive direction bits plus 1 fire bit (remaining bits
reserved/zero), so the direction part takes one of five values. -/
inductive Dir where
  | none
  | up
  | down
  | left
  | right
  deriving DecidableEq

/-- Modelled from the spec: one frame of one player's intent, a direction
part (4 mutually exclusive direction bits) and a fire bit. -/
structure InputSymbol where
  dir : Dir
  fire : Bool
  deriving DecidableEq

/-- Modelled from the spec: `decode(symbol) -> (direction : unit or zero, ...)`
from spec section 4.1; the direction bits decode to the corresponding axis
unit vector, no bits set decodes to the zero vector. -/
def direction (i : InputSymbol) : Vec2 :=
  match i.dir with
  | Dir.none => Vec2.zero
  | Dir.up => ⟨0, 1⟩
  | Dir.down => ⟨0, -1⟩
  | Dir.left => ⟨-1, 0⟩
  | Dir.right => ⟨1, 0⟩

/-- Modelled from the spec: the fire-bit extraction of the input codec. -/
def fire (i : InputSymbol) : Bool := i.fire

/-- glam's Vec2::normalize_or_zero restricted to the unit-or-zero vectors the
direction decode can produce (spec section 3: the direction bits are mutually
exclusive), where it returns its argument unchanged. -/
def normalizeOrZero (v : Vec2) : Vec2 := if v = Vec2.zero then Vec2.zero else v

/-- A player entity: Player { handle }, a Transform translation (we keep the
x,y coordinates; z is constant and presentation-only), an optional MoveDir
component (none = the component is absent from the entity) and the
BulletReady component. -/
structure PlayerEnt where
  handle : Nat
  pos : Vec2
  moveDir : Option Vec2
  bulletReady : Bool
  deriving DecidableEq

/-- A bullet entity: Bullet marker, Transform translation (x,y), and an
optional MoveDir component giving the travel direction. -/
structure BulletEnt where
  pos : Vec2
  dir : Option Vec2
  deriving DecidableEq

/-- The rollback-relevant simulation state: the player entities and the live
bullet entities, in spawn order. -/
structure SimState where
  players : List PlayerEnt
  bullets : List BulletEnt
  deriving DecidableEq

/-- reload_bullet (main.rs lines 90-100), per entity: the query asks for
(&mut BulletReady, &Player), which every player entity has; if the fire bit
of that player's input is unset, set BulletReady to true. -/
def reload_bullet_ent (inputs : Nat → InputSymbol) (p : PlayerEnt) : PlayerEnt :=
  if fire (inputs p.handle) then p else { p with bulletReady := true }

/-- reload_bullet as a transformation of the whole state. -/
def reload_bullet (inputs : Nat → InputSymbol) (s : SimState) : SimState :=
  { s with players := s.players.map (reload_bullet_ent inputs) }

/-- move_players (main.rs lines 160-184), per entity: the query asks for
(&mut Transform, &mut MoveDir, &Player), so an entity without a MoveDir
component is not matched and is left untouched.  For a matched entity the
decoded direction is normalized; the zero direction skips the entity;
otherwise MoveDir is set to the direction and the position is advanced by
direction * 7 * dt and clamped to the square of half-extent
MAP_SIZE / 2 - 0.5. -/
def move_players_ent (inputs : Nat → InputSymbol) (dt : ℚ) (p : PlayerEnt) : PlayerEnt :=
  match p.moveDir with
  | Option.none => p
  | Option.some _ =>
    let d := normalizeOrZero (direction (inputs p.handle))
    if d = Vec2.zero then p
    else
      let move_speed : ℚ := 7
      let move_delta := Vec2.scale (move_speed * dt) d
      let limit : ℚ := MAP_SIZE / 2 - 1 / 2
      let new_pos := Vec2.clamp (p.pos + move_delta) ⟨-limit, -limit⟩ ⟨limit, limit⟩
      { p with moveDir := Option.some d, pos := new_pos }

/-- move_players as a transformation of the whole state. -/
def move_players (inputs : Nat → InputSymbol) (dt : ℚ) (s : SimState) : SimState :=
  { s with players := s.players.map (move_players_ent inputs dt) }

/-- fire_bullets (main.rs lines 110-138), per entity: the query asks for
(&Transform, &Player, &mut BulletReady, &MoveDir), so an entity without a
MoveDir component is not matched.  If the fire bit is set and BulletReady is
true, a bullet is spawned at the player's position with the player's MoveDir
and BulletReady is cleared. -/
def fire_bullets_ent (inputs : Nat → InputSymbol) (p : PlayerEnt) : PlayerEnt × List BulletEnt :=
  match p.moveDir with
  | Option.none => (p, [])
  | Option.some md =>
    if fire (inputs p.handle) && p.bulletReady then
      ({ p with bulletReady := false }, [{ pos := p.pos, dir := Option.some md }])
    else (p, [])

/-- fire_bullets as a transformation of the whole state: spawned bullets are
appended after the existing ones, in player iteration order. -/
def fire_bullets (inputs : Nat → InputSymbol) (s : SimState) : SimState :=
  let shots := s.players.map (fire_bullets_ent inputs)
  { s with
    players := shots.map Prod.fst,
    bullets := s.bullets ++ (shots.map Prod.snd).flatten }

/-- move_bullet (main.rs lines 102-108), per entity: the query asks for
(&mut Transform, &MoveDir) with a Bullet marker, so a bullet without a
MoveDir component is skipped; otherwise its position advances by
dir * 20 * dt. -/
def move_bullet_ent (dt : ℚ) (b : BulletEnt) : BulletEnt :=
  match b.dir with
  | Option.none => b
  | Option.some d => { b with pos := b.pos + Vec2.scale (20 * dt) d }

/-- move_bullet as a transformation of the whole state. -/
def move_bullet (dt : ℚ) (s : SimState) : SimState :=
  { s with bullets := s.bullets.map (move_bullet_ent dt) }

/-- One GgrsSchedule tick (main.rs lines 75-83): move_players, reload_bullet,
then fire_bullets after both, then move_bullet after fire_bullets.
move_players and reload_bullet have no relative order in the schedule, but
they read and write disjoint components of each entity, so either order gives
the same state; we fix move_players first.  dt is the fixed tick duration the
rollback scheduler installs as the Time resource inside the GgrsSchedule. -/
def step (inputs : Nat → InputSymbol) (dt : ℚ) (s : SimState) : SimState :=
  move_bullet dt (fire_bullets inputs (reload_bullet inputs (move_players inputs dt s)))

/-- Running the step over a sequence of per-frame input vectors. -/
def run (l : List (Nat → InputSymbol)) (dt : ℚ) (s : SimState) : SimState :=
  match l with
  | [] => s
  | i :: rest => run rest dt (step i dt s)

/-- spawn_player (main.rs lines 274-306): handle 0 at (-2, 0) and handle 1 at
(2, 0), each with BulletReady(true) and a SpriteBundle Transform.  No MoveDir
component is inserted on either player. -/
def spawn_player : SimState :=
  { players :=
      [ { handle := 0, pos := ⟨-2, 0⟩, moveDir := Option.none, bulletReady := true },
        { handle := 1, pos := ⟨2, 0⟩, moveDir := Option.none, bulletReady := true } ],
    bullets := [] }

/-- The projection of a player entity onto the components registered for
rollback in main.rs lines 84-86: Transform (registered with clone) and
BulletReady (registered with copy).  The MoveDir registration on line 86 is
commented out, so MoveDir is not part of a snapshot. -/
structure PlayerSnap where
  handle : Nat
  pos : Vec2
  bulletReady : Bool
  deriving DecidableEq

/-- A snapshot: the registered component values of the rollback entities at
capture time.  Bullets carry only their Transform, since neither Bullet nor
MoveDir is registered for rollback. -/
structure Snapshot where
  players : List PlayerSnap
  bulletPos : List Vec2
  deriving DecidableEq

/-- Capturing a snapshot copies the registered components of every rollback
entity. -/
def capture (s : SimState) : Snapshot :=
  { players := s.players.map
      (fun p => { handle := p.handle, pos := p.pos, bulletReady := p.bulletReady }),
    bulletPos := s.bullets.map BulletEnt.pos }

/-- Restoring player entities: the registered components (Transform,
BulletReady) come from the snapshot; the unregistered MoveDir component keeps
its live value on a surviving entity and is absent on a recreated one. -/
def restorePlayers : List PlayerSnap → List PlayerEnt → List PlayerEnt
  | [], _ => []
  | ps :: rest, [] =>
      { handle := ps.handle, pos := ps.pos, moveDir := Option.none,
        bulletReady := ps.bulletReady } :: restorePlayers rest []
  | ps :: rest, lv :: lvs =>
      { handle := ps.handle, pos := ps.pos, moveDir := lv.moveDir,
        bulletReady := ps.bulletReady } :: restorePlayers rest lvs

/-- Restoring bullet entities: Transform comes from the snapshot; the
unregistered MoveDir keeps its live value on a surviving bullet and is absent
on a recreated one. -/
def restoreBullets : List Vec2 → List BulletEnt → List BulletEnt
  | [], _ => []
  | p :: rest, [] => { pos := p, dir := Option.none } :: restoreBullets rest []
  | p :: rest, b :: bs => { pos := p, dir := b.dir } :: restoreBullets rest bs

/-- Loading a snapshot into the live world: the entity set is made to match
the snapshot and registered components are overwritten from it; components
not registered for rollback are untouched. -/
def loadSnapshot (snap : Snapshot) (live : SimState) : SimState :=
  { players := restorePlayers snap.players live.players,
    bullets := restoreBullets snap.bulletPos live.bullets }

/-- Modelled from the spec: the snapshot store of section 4.5 keeps snapshots
indexed by frame number; the store mechanics live in the rollback library,
only the component registrations are in this repository. -/
abbrev SnapshotStore := List (Nat × Snapshot)

/-- Modelled from the spec: `put(FrameNumber, SimulationState)` stores an
independent copy of the registered state, keyed by frame. -/
def put (f : Nat) (snap : Snapshot) (store : SnapshotStore) : SnapshotStore :=
  (f, snap) :: store

/-- Modelled from the spec: `get(FrameNumber)` returns the stored snapshot
for the frame, if present. -/
def get (store : SnapshotStore) (f : Nat) : Option Snapshot :=
  (store.find? (fun e => e.fst == f)).map Prod.snd

/-- The round trip of claim C1: capture state s, put it at frame f, get it
back and load it into the live world. -/
def getPut (f : Nat) (s : SimState) (live : SimState) : Option SimState :=
  (get (put f (capture s) []) f).map (fun snap => loadSnapshot snap live)

/-- The session-relevant app states (main.rs lines 32-38). -/
inductive GameState where
  | AssetLoading
  | Matchmaking
  | InGame
  deriving DecidableEq

/-- The session configuration built by wait_for_players: num_players, the
configured input delay, and the handle assignment produced by
`add_player(player, i)` over the enumerated peer list. -/
structure SessionCfg where
  numPlayers : Nat
  inputDelay : Nat
  playerHandles : List (Nat × Nat)
  deriving DecidableEq

/-- wait_for_players (main.rs lines 186-226).  `channelAvailable` models
`socket.get_channel(0).is_ok()` (false once the session has started);
`peers` is the player list returned by the signaling collaborator's
`socket.players()` in its fixed deterministic order (spec section 6 treats
the signaling transport as external).  With fewer than two players the state
is unchanged; otherwise a session with num_players = 2 and input delay 2 is
built, handle i is assigned to the i-th entry of the peer list, and the state
moves to InGame. -/
def wait_for_players (channelAvailable : Bool) (peers : List Nat) (st : GameState) :
    GameState × Option SessionCfg :=
  if channelAvailable = false then (st, Option.none)
  else if peers.length < 2 then (st, Option.none)
  else (GameState.InGame,
        Option.some { numPlayers := 2, inputDelay := 2, playerHandles := peers.enum })

/-- The per-entity composite a player goes through in one tick: movement,
then reload, then fire (the bullet phase does not touch players). -/
def tick_ent (inputs : Nat → InputSymbol) (dt : ℚ) (p : PlayerEnt) :
    PlayerEnt × List BulletEnt :=
  fire_bullets_ent inputs (reload_bullet_ent inputs (move_players_ent inputs dt p))

/-- A frame input with no direction held and fire not pressed, for every
handle. -/
def idleInputs : Nat → InputSymbol := fun _ => { dir := Dir.none, fire := false }

/-- A frame input with fire pressed and no direction held, for every
handle. -/
def fireInputs : Nat → InputSymbol := fun _ => { dir := Dir.none, fire := true }

/-- A frame input with the +X direction held and fire not pressed, for every
handle. -/
def rightInputs : Nat → InputSymbol := fun _ => { dir := Dir.right, fire := false }

/-- The frame-1 input vector of the movement scenario: handle 0 holds +X with
fire not pressed, handle 1 idles. -/
def frame1Inputs : Nat → InputSymbol := fun h =>
  if h = 0 then { dir := Dir.right, fire := false } else { dir := Dir.none, fire := false }

theorem move_players_ent_handle (inputs : Nat → InputSymbol) (dt : ℚ) (p : PlayerEnt) :
    (move_players_ent inputs dt p).handle = p.handle := by
  unfold move_players_ent
  cases p.moveDir
  · rfl
  · dsimp only
    split
    · rfl
    · rfl

theorem move_players_ent_ready (inputs : Nat → InputSymbol) (dt : ℚ) (p : PlayerEnt) :
    (move_players_ent inputs dt p).bulletReady = p.bulletReady := by
  unfold move_players_ent
  cases p.moveDir
  · rfl
  · dsimp only
    split
    · rfl
    · rfl

theorem move_players_ent_zero (inputs : Nat → InputSymbol) (dt : ℚ) (p : PlayerEnt)
    (h : direction (inputs p.handle) = Vec2.zero) :
    move_players_ent inputs dt p = p := by
  unfold move_players_ent
  cases p.moveDir
  · rfl
  · dsimp only
    rw [if_pos]
    rw [h]
    rfl

theorem reload_bullet_ent_handle (inputs : Nat → InputSymbol) (p : PlayerEnt) :
    (reload_bullet_ent inputs p).handle = p.handle := by
  unfold reload_bullet_ent
  split
  · rfl
  · rfl

theorem reload_bullet_ent_pos (inputs : Nat → InputSymbol) (p : PlayerEnt) :
    (reload_bullet_ent inputs p).pos = p.pos := by
  unfold reload_bullet_ent
  split
  · rfl
  · rfl

theorem reload_bullet_ent_moveDir (inputs : Nat → InputSymbol) (p : PlayerEnt) :
    (reload_bullet_ent inputs p).moveDir = p.moveDir := by
  unfold reload_bullet_ent
  split
  · rfl
  · rfl

theorem reload_bullet_ent_noFire (inputs : Nat → InputSymbol) (p : PlayerEnt)
    (h : fire (inputs p.handle) = false) :
    reload_bullet_ent inputs p = { p with bulletReady := true } := by
  unfold reload_bullet_ent
  rw [h]
  rfl

theorem reload_bullet_ent_onFire (inputs : Nat → InputSymbol) (p : PlayerEnt)
    (h : fire (inputs p.handle) = true) :
    reload_bullet_ent inputs p = p := by
  unfold reload_bullet_ent
  rw [h]
  rfl

theorem fire_bullets_ent_fst_handle (inputs : Nat → InputSymbol) (p : PlayerEnt) :
    (fire_bullets_ent inputs p).fst.handle = p.handle := by
  unfold fire_bullets_ent
  cases p.moveDir
  · rfl
  · dsimp only
    split
    · rfl
    · rfl

theorem fire_bullets_ent_fst_pos (inputs : Nat → InputSymbol) (p : PlayerEnt) :
    (fire_bullets_ent inputs p).fst.pos = p.pos := by
  unfold fire_bullets_ent
  cases p.moveDir
  · rfl
  · dsimp only
    split
    · rfl
    · rfl

theorem fire_bullets_ent_fst_moveDir (inputs : Nat → InputSymbol) (p : PlayerEnt) :
    (fire_bullets_ent inputs p).fst.moveDir = p.moveDir := by
  unfold fire_bullets_ent
  cases hm : p.moveDir
  · exact hm
  · dsimp only
    split
    · rfl
    · exact hm

theorem fire_bullets_ent_noFire (inputs : Nat → InputSymbol) (p : PlayerEnt)
    (h : fire (inputs p.handle) = false) :
    fire_bullets_ent inputs p = (p, []) := by
  unfold fire_bullets_ent
  cases p.moveDir
  · rfl
  · dsimp only
    rw [h]
    rfl

theorem step_players_eq (inputs : Nat → InputSymbol) (dt : ℚ) (s : SimState) :
    (step inputs dt s).players = s.players.map (fun p => (tick_ent inputs dt p).fst) := by
  simp [step, move_bullet, fire_bullets, reload_bullet, move_players, tick_ent,
    List.map_map, Function.comp]

theorem step_bullets_eq (inputs : Nat → InputSymbol) (dt : ℚ) (s : SimState) :
    (step inputs dt s).bullets =
      (s.bullets ++ (s.players.map (fun p => (tick_ent inputs dt p).snd)).flatten).map
        (move_bullet_ent dt) := by
  simp [step, move_bullet, fire_bullets, reload_bullet, move_players, tick_ent,
    List.map_map, Function.comp]
  rfl

theorem tick_ent_fst_handle (inputs : Nat → InputSymbol) (dt : ℚ) (p : PlayerEnt) :
    (tick_ent inputs dt p).fst.handle = p.handle := by
  unfold tick_ent
  rw [fire_bullets_ent_fst_handle, reload_bullet_ent_handle, move_players_ent_handle]

theorem tick_ent_fst_pos (inputs : Nat → InputSymbol) (dt : ℚ) (p : PlayerEnt) :
    (tick_ent inputs dt p).fst.pos = (move_players_ent inputs dt p).pos := by
  unfold tick_ent
  rw [fire_bullets_ent_fst_pos, reload_bullet_ent_pos]

theorem tick_ent_fst_moveDir (inputs : Nat → InputSymbol) (dt : ℚ) (p : PlayerEnt) :
    (tick_ent inputs dt p).fst.moveDir = (move_players_ent inputs dt p).moveDir := by
  unfold tick_ent
  rw [fire_bullets_ent_fst_moveDir, reload_bullet_ent_moveDir]

theorem tick_ent_noFire_ready (inputs : Nat → InputSymbol) (dt : ℚ) (p : PlayerEnt)
    (h : fire (inputs p.handle) = false) :
    (tick_ent inputs dt p).fst.bulletReady = true := by
  unfold tick_ent
  have h1 : fire (inputs (move_players_ent inputs dt p).handle) = false := by
    rw [move_players_ent_handle]; exact h
  rw [reload_bullet_ent_noFire _ _ h1]
  have h2 : fire (inputs ({ move_players_ent inputs dt p with bulletReady := true } : PlayerEnt).handle) = false := h1
  rw [fire_bullets_ent_noFire _ _ h2]

/-- Claim C4: the per-tick simulation step is a deterministic function of the
current SimulationState and the per-player input vector: applied to
independent, equal copies of state and inputs it produces identical results.
In this embedding the step is, by construction from the source systems, a
pure function of the state, the input vector and the fixed tick duration the
rollback scheduler supplies: there is no wall-clock, randomness or I/O
parameter for it to depend on. -/
theorem step_deterministic (s1 s2 : SimState) (i1 i2 : Nat → InputSymbol) (dt : ℚ)
    (hs : s1 = s2) (hi : i1 = i2) : step i1 dt s1 = step i2 dt s2 := by
  rw [hs, hi]

/-- Witness for claim C4 at a concrete state and input vector. -/
theorem step_deterministic_witness :
    spawn_player = spawn_player ∧ rightInputs = rightInputs ∧
      step rightInputs (1 / 60) spawn_player = step rightInputs (1 / 60) spawn_player :=
  ⟨rfl, rfl, step_deterministic spawn_player spawn_player rightInputs rightInputs (1 / 60) rfl rfl⟩

/-- Claim C6: on every simulation step, a player whose frame input has the
fire bit unset ends the step with the weapon-ready flag true, regardless of
its prior value. -/
theorem no_fire_restores_ready (inputs : Nat → InputSymbol) (dt : ℚ) (s : SimState)
    (q : PlayerEnt) (hq : q ∈ (step inputs dt s).players)
    (hf : fire (inputs q.handle) = false) : q.bulletReady = true := by
  rw [step_players_eq] at hq
  rcases List.mem_map.mp hq with ⟨p, hp, rfl⟩
  rw [tick_ent_fst_handle] at hf
  exact tick_ent_noFire_ready inputs dt p hf

/-- Witness for claim C6: after one step of the initial session state with no
fire requested, handle 0 is ready. -/
theorem no_fire_restores_ready_witness :
    ({ handle := 0, pos := ⟨-2, 0⟩, moveDir := Option.none, bulletReady := true } : PlayerEnt)
        ∈ (step idleInputs (1 / 60) spawn_player).players ∧
      fire (idleInputs 0) = false ∧
      ({ handle := 0, pos := ⟨-2, 0⟩, moveDir := Option.none,
          bulletReady := true } : PlayerEnt).bulletReady = true :=
  ⟨by decide, by decide,
    no_fire_restores_ready idleInputs (1 / 60) spawn_player _ (by decide) (by decide)⟩

/-- Claim C8: a player whose decoded frame input is the zero direction keeps
exactly its position and stored move direction over one simulation step. -/
theorem zero_direction_leaves_player_unchanged (inputs : Nat → InputSymbol) (dt : ℚ)
    (s : SimState) (i : Nat) (p : PlayerEnt)
    (hp : s.players[i]? = some p)
    (hz : direction (inputs p.handle) = Vec2.zero) :
    ∃ q : PlayerEnt, (step inputs dt s).players[i]? = some q ∧
      q.pos = p.pos ∧ q.moveDir = p.moveDir := by
  refine ⟨(tick_ent inputs dt p).fst, ?_, ?_, ?_⟩
  · rw [step_players_eq, List.getElem?_map, hp]
    rfl
  · rw [tick_ent_fst_pos, move_players_ent_zero inputs dt p hz]
  · rw [tick_ent_fst_moveDir, move_players_ent_zero inputs dt p hz]

/-- Witness for claim C8 on handle 0 of the initial state with an idle
input. -/
theorem zero_direction_leaves_player_unchanged_witness :
    spawn_player.players[0]? =
        some { handle := 0, pos := ⟨-2, 0⟩, moveDir := Option.none, bulletReady := true } ∧
      direction (idleInputs 0) = Vec2.zero ∧
      ∃ q : PlayerEnt, (step idleInputs (1 / 60) spawn_player).players[0]? = some q ∧
        q.pos = ⟨-2, 0⟩ ∧ q.moveDir = Option.none :=
  ⟨by decide, by decide,
    zero_direction_leaves_player_unchanged idleInputs (1 / 60) spawn_player 0
      { handle := 0, pos := ⟨-2, 0⟩, moveDir := Option.none, bulletReady := true }
      (by decide) (by decide)⟩

/-- A player position lies inside the arena square of half-extent
MAP_SIZE / 2 - 0.5 that move_players clamps to. -/
def inBounds (p : PlayerEnt) : Prop :=
  -(MAP_SIZE / 2 - 1 / 2) ≤ p.pos.x ∧ p.pos.x ≤ MAP_SIZE / 2 - 1 / 2 ∧
    -(MAP_SIZE / 2 - 1 / 2) ≤ p.pos.y ∧ p.pos.y ≤ MAP_SIZE / 2 - 1 / 2

instance (p : PlayerEnt) : Decidable (inBounds p) := by
  unfold inBounds
  infer_instance

theorem clampQ_mem (lo hi x : ℚ) (h : lo ≤ hi) :
    lo ≤ clampQ lo hi x ∧ clampQ lo hi x ≤ hi := by
  unfold clampQ
  split_ifs with h1 h2
  · exact ⟨le_refl lo, h⟩
  · exact ⟨h, le_refl hi⟩
  · exact ⟨le_of_not_lt h1, le_of_not_lt h2⟩

theorem arena_lo_le_hi : -(MAP_SIZE / 2 - 1 / 2 : ℚ) ≤ MAP_SIZE / 2 - 1 / 2 := by
  norm_num [MAP_SIZE]

theorem move_players_ent_inBounds (inputs : Nat → InputSymbol) (dt : ℚ) (p : PlayerEnt)
    (h : inBounds p) : inBounds (move_players_ent inputs dt p) := by
  unfold move_players_ent
  cases p.moveDir
  · exact h
  · dsimp only
    split
    · exact h
    · refine ⟨?_, ?_, ?_, ?_⟩
      · exact (clampQ_mem _ _ _ arena_lo_le_hi).1
      · exact (clampQ_mem _ _ _ arena_lo_le_hi).2
      · exact (clampQ_mem _ _ _ arena_lo_le_hi).1
      · exact (clampQ_mem _ _ _ arena_lo_le_hi).2

theorem inBounds_of_pos_eq (q p : PlayerEnt) (h : q.pos = p.pos) (hb : inBounds p) :
    inBounds q := by
  unfold inBounds at *
  rw [h]
  exact hb

theorem tick_ent_inBounds (inputs : Nat → InputSymbol) (dt : ℚ) (p : PlayerEnt)
    (h : inBounds p) : inBounds (tick_ent inputs dt p).fst := by
  refine inBounds_of_pos_eq _ _ (tick_ent_fst_pos inputs dt p) ?_
  exact move_players_ent_inBounds inputs dt p h

/-- Claim C5: for every sequence of per-frame inputs, every player that
starts inside the arena bounds is still inside them after every simulation
step: each movement update clamps the new position to the arena square. -/
theorem players_stay_in_bounds (l : List (Nat → InputSymbol)) (dt : ℚ) (s : SimState)
    (h : ∀ p ∈ s.players, inBounds p) : ∀ p ∈ (run l dt s).players, inBounds p := by
  induction l generalizing s with
  | nil => exact h
  | cons i rest ih =>
    refine ih (step i dt s) ?_
    intro q hq
    rw [step_players_eq] at hq
    rcases List.mem_map.mp hq with ⟨p, hp, rfl⟩
    exact tick_ent_inBounds i dt p (h p hp)

/-- Witness for claim C5: both players of the initial state start inside the
bounds and are inside them after two frames of +X movement. -/
theorem players_stay_in_bounds_witness :
    (∀ p ∈ spawn_player.players, inBounds p) ∧
      (∀ p ∈ (run [rightInputs, rightInputs] (1 / 60) spawn_player).players, inBounds p) :=
  ⟨by decide,
    players_stay_in_bounds [rightInputs, rightInputs] (1 / 60) spawn_player (by decide)⟩

theorem fire_bullets_ent_skip (inputs : Nat → InputSymbol) (p : PlayerEnt)
    (hmd : p.moveDir = Option.none) : fire_bullets_ent inputs p = (p, []) := by
  unfold fire_bullets_ent
  rw [hmd]

theorem fire_bullets_ent_spawn (inputs : Nat → InputSymbol) (p : PlayerEnt) (d : Vec2)
    (hmd : p.moveDir = Option.some d) (hf : fire (inputs p.handle) = true)
    (hb : p.bulletReady = true) :
    fire_bullets_ent inputs p =
      ({ p with bulletReady := false }, [{ pos := p.pos, dir := Option.some d }]) := by
  unfold fire_bullets_ent
  rw [hmd]
  dsimp only
  rw [hf, hb]
  rfl

theorem tick_ent_clear (inputs : Nat → InputSymbol) (dt : ℚ) (p : PlayerEnt)
    (hb : p.bulletReady = true)
    (hc : (tick_ent inputs dt p).fst.bulletReady = false) :
    fire (inputs p.handle) = true ∧ (tick_ent inputs dt p).snd ≠ [] := by
  by_cases hf : fire (inputs p.handle) = true
  · refine ⟨hf, ?_⟩
    have hm_ready : (move_players_ent inputs dt p).bulletReady = true := by
      rw [move_players_ent_ready]
      exact hb
    have hfm : fire (inputs (move_players_ent inputs dt p).handle) = true := by
      rw [move_players_ent_handle]
      exact hf
    have hrl : reload_bullet_ent inputs (move_players_ent inputs dt p) =
        move_players_ent inputs dt p := reload_bullet_ent_onFire _ _ hfm
    unfold tick_ent at hc ⊢
    rw [hrl] at hc ⊢
    cases hmd : (move_players_ent inputs dt p).moveDir with
    | none =>
      rw [fire_bullets_ent_skip inputs _ hmd] at hc
      rw [hm_ready] at hc
      exact absurd hc (by simp)
    | some d =>
      rw [fire_bullets_ent_spawn inputs _ d hmd hfm hm_ready]
      simp
  · have hf0 : fire (inputs p.handle) = false := by
      cases hfire : fire (inputs p.handle)
      · rfl
      · exact absurd hfire hf
    have hready := tick_ent_noFire_ready inputs dt p hf0
    rw [hready] at hc
    exact absurd hc (by simp)

/-- Claim C10: a player's weapon-ready flag goes from true to false only in a
step whose input for that player has fire set and in which a projectile is
actually added, and on a step with fire unset the flag ends true (reload only
ever sets it). -/
theorem ready_clears_only_on_spawn (inputs : Nat → InputSymbol) (dt : ℚ) (s : SimState)
    (i : Nat) (p q : PlayerEnt)
    (hp : s.players[i]? = some p)
    (hq : (step inputs dt s).players[i]? = some q) :
    (p.bulletReady = true → q.bulletReady = false →
        fire (inputs p.handle) = true ∧
          s.bullets.length < (step inputs dt s).bullets.length) ∧
      (fire (inputs p.handle) = false → q.bulletReady = true) := by
  have hq2 : q = (tick_ent inputs dt p).fst := by
    rw [step_players_eq, List.getElem?_map, hp] at hq
    exact (Option.some.inj hq).symm
  constructor
  · intro hb hc
    rw [hq2] at hc
    rcases tick_ent_clear inputs dt p hb hc with ⟨hf, hsnd⟩
    refine ⟨hf, ?_⟩
    rw [step_bullets_eq, List.length_map, List.length_append]
    have hget : (s.players.map (fun r => (tick_ent inputs dt r).snd))[i]? =
        some (tick_ent inputs dt p).snd := by
      rw [List.getElem?_map, hp]
      rfl
    have hmem : (tick_ent inputs dt p).snd ∈
        s.players.map (fun r => (tick_ent inputs dt r).snd) :=
      List.getElem?_mem hget
    rcases List.exists_mem_of_ne_nil _ hsnd with ⟨b, hbmem⟩
    have hbfl : b ∈ (s.players.map (fun r => (tick_ent inputs dt r).snd)).flatten :=
      List.mem_flatten.mpr ⟨(tick_ent inputs dt p).snd, hmem, hbmem⟩
    exact Nat.lt_add_of_pos_right (List.length_pos_of_mem hbfl)
  · intro hf
    rw [hq2]
    exact tick_ent_noFire_ready inputs dt p hf

/-- The armed player of the C10 witness state: it carries a MoveDir component
and is weapon-ready. -/
def armedPlayer : PlayerEnt := ⟨0, ⟨-2, 0⟩, Option.some ⟨1, 0⟩, true⟩

/-- armedPlayer after a tick in which it fired. -/
def firedPlayer : PlayerEnt := ⟨0, ⟨-2, 0⟩, Option.some ⟨1, 0⟩, false⟩

/-- A one-player state whose player can actually fire. -/
def armedState : SimState := ⟨[armedPlayer], []⟩

/-- Witness for claim C10 on a state whose player can actually fire. -/
theorem ready_clears_only_on_spawn_witness :
    armedState.players[0]? = some armedPlayer ∧
      (step fireInputs (1 / 60) armedState).players[0]? = some firedPlayer ∧
      ((armedPlayer.bulletReady = true → firedPlayer.bulletReady = false →
          fire (fireInputs armedPlayer.handle) = true ∧
            armedState.bullets.length < (step fireInputs (1 / 60) armedState).bullets.length) ∧
        (fire (fireInputs armedPlayer.handle) = false → firedPlayer.bulletReady = true)) :=
  ⟨by decide, by decide,
    ready_clears_only_on_spawn fireInputs (1 / 60) armedState 0 armedPlayer firedPlayer
      (by decide) (by decide)⟩

/-- Claim C7: a matchmaking poll that sees fewer than two peers leaves the
state in Matchmaking with no session; with exactly two peers it moves to the
in-game state and assigns handle 0 and handle 1 to the first and second entry
of the collaborator's deterministically ordered peer list. -/
theorem matchmaking_transitions_at_two_peers (peers : List Nat) :
    (∀ ch : Bool, peers.length < 2 →
        wait_for_players ch peers GameState.Matchmaking =
          (GameState.Matchmaking, Option.none)) ∧
      (∀ a b : Nat, peers = [a, b] →
        wait_for_players true peers GameState.Matchmaking =
          (GameState.InGame, Option.some ⟨2, 2, [(0, a), (1, b)]⟩)) := by
  constructor
  · intro ch h
    cases ch
    · rfl
    · unfold wait_for_players
      rw [if_neg (by simp), if_pos h]
  · rintro a b rfl
    rfl

/-- Witness for claim C7 with one discovered peer and with two. -/
theorem matchmaking_transitions_at_two_peers_witness :
    (([7] : List Nat).length < 2 ∧
        wait_for_players true [7] GameState.Matchmaking =
          (GameState.Matchmaking, Option.none)) ∧
      wait_for_players true [3, 9] GameState.Matchmaking =
        (GameState.InGame, Option.some ⟨2, 2, [(0, 3), (1, 9)]⟩) :=
  ⟨⟨by decide, (matchmaking_transitions_at_two_peers [7]).1 true (by decide)⟩,
    (matchmaking_transitions_at_two_peers [3, 9]).2 3 9 rfl⟩

/-- Claim C9: the session constructed at the matchmaking-to-active transition
is configured with an input delay of exactly 2 frames. -/
theorem session_input_delay_two (peers : List Nat) (h : 2 ≤ peers.length) :
    Option.map SessionCfg.inputDelay
        (wait_for_players true peers GameState.Matchmaking).snd = Option.some 2 := by
  unfold wait_for_players
  rw [if_neg (by simp), if_neg (Nat.not_lt.mpr h)]
  rfl

/-- Witness for claim C9 with two discovered peers. -/
theorem session_input_delay_two_witness :
    2 ≤ ([3, 9] : List Nat).length ∧
      Option.map SessionCfg.inputDelay
          (wait_for_players true [3, 9] GameState.Matchmaking).snd = Option.some 2 :=
  ⟨by decide, session_input_delay_two [3, 9] (by decide)⟩

/-- A state whose snapshot is taken in claim C1: its player's stored move
direction is +Y. -/
def snapState : SimState := ⟨[⟨0, ⟨-2, 0⟩, Option.some ⟨0, 1⟩, true⟩], []⟩

/-- The live state at restore time in claim C1: identical to snapState except
that the stored move direction has since become +X. -/
def liveState : SimState := ⟨[⟨0, ⟨-2, 0⟩, Option.some ⟨1, 0⟩, true⟩], []⟩

/-- Claim C1, evaluated at the failing input: get after put of the frame-5
snapshot of snapState, restored into liveState, returns liveState and not
snapState — the stored move direction is not restored, since only Transform
and BulletReady are registered for rollback (the MoveDir registration at
main.rs line 86 is commented out). -/
theorem snapshot_roundtrip_drops_movedir :
    getPut 5 snapState liveState = Option.some liveState ∧ liveState ≠ snapState := by
  decide

/-- Claim C2, evaluated at the failing input: in the initial session state
both players are weapon-ready, yet a step whose inputs press fire spawns no
projectile and leaves both ready flags true, because the query of
fire_bullets requires a MoveDir component that spawn_player never inserts,
so every player entity is skipped. -/
theorem fire_with_ready_spawns_nothing :
    spawn_player.players.map PlayerEnt.bulletReady = [true, true] ∧
      (step fireInputs (1 / 60) spawn_player).bullets = [] ∧
      (step fireInputs (1 / 60) spawn_player).players.map PlayerEnt.bulletReady =
        [true, true] := by
  decide

/-- Claim C3, evaluated at the failing input: the initial state has handle 0
at (-2, 0) and handle 1 at (2, 0) with both ready, but after one step with +X
held for handle 0 its position is still (-2, 0) and not (-2 + 7 dt, 0),
because the query of move_players requires a MoveDir component that
spawn_player never inserts. -/
theorem initial_step_leaves_handle0_at_start :
    spawn_player.players.map PlayerEnt.pos = [⟨-2, 0⟩, ⟨2, 0⟩] ∧
      spawn_player.players.map PlayerEnt.bulletReady = [true, true] ∧
      (step frame1Inputs (1 / 60) spawn_player).players.map PlayerEnt.pos =
        [⟨-2, 0⟩, ⟨2, 0⟩] ∧
      (step frame1Inputs (1 / 60) spawn_player).players.map PlayerEnt.bulletReady =
        [true, true] ∧
      (⟨-2, 0⟩ : Vec2) ≠ ⟨-2 + 7 * (1 / 60), 0⟩ := by
  decide

end WizardBattles
